import Mathlib

/-!
Shallow embedding of the order-lifecycle and cart slice of the Ecommerce
repository (Express/Sequelize backend).  Sources embedded here:

* `src/server/models/Cart.js`   — cart line items, `addItem`,
  `removeItem`, `updateItemQuantity`, `clearCart`, `calculateTotals`;
* `src/server/models/User.js`   — the `Order` entity (second document in
  the file): `addTimelineEntry`, `updateStatus`, `canBeCancelled`,
  `canBeReturned`, `getStatusHistory`;
* `src/server/routes/orders.js` — the `POST /api/orders` checkout
  handler, `PUT /api/orders/:id/cancel`, `PUT /api/orders/:id/return`,
  `PUT /api/orders/:id/status` (admin) and
  `GET /api/orders/track/:orderNumber`.

Modelling conventions: JS numbers holding money are modelled as `ℚ`
(the values exercised by the spec are exact in binary-independent
decimal arithmetic and the stored identities are by-construction);
integer quantities and stock are `Int`; `Date.now()` timestamps and the
random timeline-entry ids are passed in as explicit parameters.
Request strings are modelled post-sanitization (express-validator's
`.trim()` runs before the handler sees the body), so `.trim().notEmpty()`
becomes a plain non-emptiness test.  Database rows live in plain lists;
a request handler is a pure function from the relevant rows and the
request to a response together with the rows after the handler's writes.
-/

namespace Shop

/-- JavaScript `Math.round`: rounds half toward positive infinity,
`Math.round(x) = ⌊x + 0.5⌋`. -/
def jsRound (q : ℚ) : ℤ := ⌊q + 1/2⌋

/-- Rounding to two decimals as written in the checkout handler:
`Math.round(x * 100) / 100`. -/
def round2 (q : ℚ) : ℚ := (jsRound (q * 100) : ℚ) / 100

/-- String.padStart(4, '0') on an already rendered string. -/
def padStart4 (s : String) : String :=
  if s.length < 4 then String.mk (List.replicate (4 - s.length) '0') ++ s else s

/-- Product row (`src/server/models/Product.js`): the fields the order
slice reads — primary key, `name`, `price`, `stock`, `is_active`, and
the image urls (`images[i].url`). -/
structure Product where
  pid : Nat
  name : String
  price : ℚ
  stock : Int
  is_active : Bool
  images : List String
deriving DecidableEq

/-- Cart line item as stored in the cart's JSON `items` column:
`{product, quantity, price, added_at}` (`Cart.prototype.addItem`). -/
structure CartItem where
  product : Nat
  quantity : Int
  price : ℚ
  added_at : Int
deriving DecidableEq

/-- Cart row: `items` plus the derived `total_items` / `total_price`
columns. -/
structure Cart where
  items : List CartItem
  total_items : Int
  total_price : ℚ
deriving DecidableEq

/-- Order status enumeration
(`ENUM('pending','processing','shipped','delivered','cancelled','returned')`). -/
inductive OrderStatus where
  | pending
  | processing
  | shipped
  | delivered
  | cancelled
  | returned
deriving DecidableEq

/-- Payment status enumeration
(`ENUM('pending','paid','failed','refunded','partially_refunded')`). -/
inductive PaymentStatus where
  | pending
  | paid
  | failed
  | refunded
  | partially_refunded
deriving DecidableEq

/-- Timeline entry `{status, note, actor, timestamp, id}` appended by
`Order.prototype.addTimelineEntry`. -/
structure TimelineEntry where
  status : OrderStatus
  note : String
  actor : String
  timestamp : Int
  id : String
deriving DecidableEq

/-- Shipping / billing address shape required by the checkout
validators (name, street, city, state, zipCode, country). -/
structure Address where
  name : String
  street : String
  city : String
  state : String
  zipCode : String
  country : String
deriving DecidableEq

/-- Denormalized order line `{product, name, price, quantity, image}`
pushed by the checkout handler. -/
structure OrderItem where
  product : Nat
  name : String
  price : ℚ
  quantity : Int
  image : String
deriving DecidableEq

/-- Order row (`src/server/models/User.js`, second document). -/
structure Order where
  user_id : Nat
  order_number : String
  items : List OrderItem
  shipping_address : Address
  billing_address : Address
  payment_method : String
  payment_status : PaymentStatus
  status : OrderStatus
  subtotal : ℚ
  tax : ℚ
  shipping : ℚ
  discount : ℚ
  total : ℚ
  currency : String
  tracking_number : Option String
  notes : Option String
  timeline : List TimelineEntry
deriving DecidableEq

/-- Database rows the checkout handler touches: the product table, the
requesting user's cart row (may not exist yet) and the order table. -/
structure DB where
  products : List Product
  cart : Option Cart
  orders : List Order
deriving DecidableEq

/-- Error response: HTTP status code plus the `message` field. -/
structure ErrResp where
  code : Nat
  msg : String
deriving DecidableEq

/-! ## Cart model (`src/server/models/Cart.js`) -/

/-- Accumulation of `totalItems += item.quantity` over the items list
in `Cart.prototype.calculateTotals`. -/
def sumQty : List CartItem → Int
  | [] => 0
  | it :: rest => it.quantity + sumQty rest

/-- Accumulation of `totalPrice += (item.price || 0) * item.quantity`
over the items list in `Cart.prototype.calculateTotals`. -/
def sumPrice : List CartItem → ℚ
  | [] => 0
  | it :: rest => it.price * (it.quantity : ℚ) + sumPrice rest

/-- Cart.prototype.calculateTotals: recompute the two derived columns
from the items. -/
def Cart.calculateTotals (c : Cart) : Cart :=
  { c with total_items := sumQty c.items, total_price := sumPrice c.items }

/-- Mutation of the first matching line performed by
`this.items.find(item => item.product === productId)` followed by
`existingItem.quantity += quantity`. -/
def bumpQty : List CartItem → Nat → Int → List CartItem
  | [], _, _ => []
  | it :: rest, pid, q =>
    if it.product == pid then { it with quantity := it.quantity + q } :: rest
    else it :: bumpQty rest pid q

/-- Cart.prototype.addItem: merge into the existing line for the same
product, or push a fresh `{product, quantity, price, added_at}` line;
then recompute totals. -/
def Cart.addItem (c : Cart) (pid : Nat) (q : Int) (price : ℚ) (now : Int) : Cart :=
  Cart.calculateTotals
    { c with items :=
        if c.items.any (fun it => it.product == pid) then bumpQty c.items pid q
        else c.items ++ [{ product := pid, quantity := q, price := price, added_at := now }] }

/-- Cart.prototype.removeItem: filter the line out, then recompute
totals. -/
def Cart.removeItem (c : Cart) (pid : Nat) : Cart :=
  Cart.calculateTotals { c with items := c.items.filter (fun it => it.product != pid) }

/-- Mutation of the first matching line performed by
`item.quantity = quantity; if (price !== null) item.price = price`. -/
def setQty : List CartItem → Nat → Int → Option ℚ → List CartItem
  | [], _, _, _ => []
  | it :: rest, pid, q, newPrice =>
    if it.product == pid then
      { it with quantity := q,
                price := match newPrice with | some pr => pr | none => it.price } :: rest
    else it :: setQty rest pid q newPrice

/-- Cart.prototype.updateItemQuantity: when the line exists, a
non-positive quantity removes it (`removeItem` itself recomputes
totals), otherwise the quantity (and price, when given) is overwritten;
`calculateTotals` runs at the end in every case. -/
def Cart.updateItemQuantity (c : Cart) (pid : Nat) (q : Int) (newPrice : Option ℚ) : Cart :=
  if c.items.any (fun it => it.product == pid) then
    if q ≤ 0 then Cart.calculateTotals (Cart.removeItem c pid)
    else Cart.calculateTotals { c with items := setQty c.items pid q newPrice }
  else Cart.calculateTotals c

/-- Cart.prototype.clearCart: empty items and zero both totals
directly. -/
def Cart.clearCart (c : Cart) : Cart :=
  { c with items := [], total_items := 0, total_price := 0 }

/-- Cart invariant stated by the spec: every line has quantity ≥ 1, no
two lines share a productId, and the two derived columns equal their
recomputation from the lines. -/
def cartInv (c : Cart) : Prop :=
  (∀ it ∈ c.items, 1 ≤ it.quantity) ∧
  (c.items.map (fun it => it.product)).Nodup ∧
  c.total_items = sumQty c.items ∧
  c.total_price = sumPrice c.items

/-! ## Order model (`src/server/models/User.js`, second document) -/

/-- Order.prototype.addTimelineEntry: push `{status, note, actor,
timestamp, id}` onto the timeline. -/
def Order.addTimelineEntry (o : Order) (st : OrderStatus) (note actor : String)
    (ts : Int) (eid : String) : Order :=
  { o with timeline := o.timeline ++
      [{ status := st, note := note, actor := actor, timestamp := ts, id := eid }] }

/-- Canned per-status messages from the `statusMessages` table inside
`Order.prototype.updateStatus`. -/
def statusMessage : OrderStatus → String
  | .pending => "Order received and is being processed"
  | .processing => "Order is being prepared for shipment"
  | .shipped => "Order has been shipped"
  | .delivered => "Order has been delivered"
  | .cancelled => "Order has been cancelled"
  | .returned => "Order has been returned"

/-- Order.prototype.updateStatus: set the status field and append one
timeline entry carrying the note argument.  The source then computes a
canned message into its local `note` variable when none was supplied,
but only after `addTimelineEntry` has already run, so that computation
never reaches the stored entry; it is therefore a no-op here. -/
def Order.updateStatus (o : Order) (newStatus : OrderStatus) (note actor : String)
    (ts : Int) (eid : String) : Order :=
  Order.addTimelineEntry { o with status := newStatus } newStatus note actor ts eid

/-- Order.prototype.canBeCancelled:
`['pending', 'processing'].includes(this.status)`. -/
def Order.canBeCancelled (o : Order) : Bool :=
  ([OrderStatus.pending, OrderStatus.processing]).contains o.status

/-- Order.prototype.canBeReturned:
`this.status === 'delivered' && this.payment_status === 'paid'`. -/
def Order.canBeReturned (o : Order) : Bool :=
  o.status == OrderStatus.delivered && o.payment_status == PaymentStatus.paid

/-! ## Checkout handler (`POST /api/orders`, src/server/routes/orders.js) -/

/-- Payment-method tag validator:
`isIn(['card', 'paypal', 'bank_transfer', 'cash_on_delivery'])`. -/
def validPaymentType (s : String) : Bool :=
  s == "card" || s == "paypal" || s == "bank_transfer" || s == "cash_on_delivery"

/-- Address validators: all six required fields non-empty after
trimming. -/
def validAddress (a : Address) : Bool :=
  a.name != "" && a.street != "" && a.city != "" &&
  a.state != "" && a.zipCode != "" && a.country != ""

/-- Checkout request body. -/
structure CheckoutReq where
  shippingAddress : Address
  billingAddress : Option Address
  paymentMethodType : String
  notes : Option String
deriving DecidableEq

/-- Combined express-validator gate for the checkout body. -/
def validCheckoutReq (r : CheckoutReq) : Bool :=
  validAddress r.shippingAddress && validPaymentType r.paymentMethodType

/-- Lookup `products.find(p => p.id === cartItem.product)` over the
fetched product rows. -/
def findProduct (ps : List Product) (pid : Nat) : Option Product :=
  ps.find? (fun p => p.pid == pid)

/-- Early-return reasons of the per-line validation loop. -/
inductive LineError where
  | unavailable (name : String)
  | insufficient (name : String) (stock : Int)
deriving DecidableEq

/-- Messages of the two 400 responses inside the loop. -/
def lineErrorMsg : LineError → String
  | .unavailable n => "Product " ++ n ++ " is no longer available"
  | .insufficient n st => "Only " ++ toString st ++ " items available for " ++ n

/-- Validation loop of the checkout handler: resolve each cart line
against the product table, rejecting missing/inactive products and
lines whose quantity exceeds stock, and accumulate the order lines and
subtotal (`itemTotal = product.price * quantity`). -/
def validateItems (ps : List Product) : List CartItem → Except LineError (List OrderItem × ℚ)
  | [] => .ok ([], 0)
  | ci :: rest =>
    match findProduct ps ci.product with
    | none => .error (.unavailable "Unknown")
    | some p =>
      if p.is_active = false then .error (.unavailable p.name)
      else if p.stock < ci.quantity then .error (.insufficient p.name p.stock)
      else
        match validateItems ps rest with
        | .error e => .error e
        | .ok (its, sub) =>
          .ok ({ product := p.pid, name := p.name, price := p.price,
                 quantity := ci.quantity, image := p.images.headD "" } :: its,
               p.price * (ci.quantity : ℚ) + sub)

/-- Stock-decrement loop after order creation: for each cart line the
matching fetched product row is written back with
`stock: product.stock - cartItem.quantity` (product ids are primary
keys, so the row update is a map over the table). -/
def decrementStocks (ps : List Product) : List CartItem → List Product
  | [] => ps
  | ci :: rest =>
    decrementStocks
      (ps.map (fun p =>
        if p.pid == ci.product then { p with stock := p.stock - ci.quantity } else p))
      rest

/-- Checkout handler `POST /api/orders`: validate the body, reject an
absent or empty cart, run the per-line validation loop, compute
shipping / tax / total, create the order row, decrement stock and clear
the cart.  `uid` is the authenticated user id, `now` is `Date.now()`. -/
def postOrders (db : DB) (req : CheckoutReq) (uid : Nat) (now : Int) :
    Except ErrResp Order × DB :=
  if validCheckoutReq req = false then (.error ⟨400, "Validation failed"⟩, db)
  else
    match db.cart with
    | none => (.error ⟨400, "Cart is empty"⟩, db)
    | some cart =>
      if cart.items.length == 0 then (.error ⟨400, "Cart is empty"⟩, db)
      else
        match validateItems db.products cart.items with
        | .error e => (.error ⟨400, lineErrorMsg e⟩, db)
        | .ok (orderItems, subtotal) =>
          let shipping : ℚ := if subtotal ≥ 50 then 0 else 10
          let tax : ℚ := round2 (subtotal * (8 / 100))
          let total : ℚ := subtotal + shipping + tax
          let order : Order :=
            { user_id := uid
              order_number :=
                "ORD-" ++ toString now ++ "-" ++ padStart4 (toString (db.orders.length + 1))
              items := orderItems
              shipping_address := req.shippingAddress
              billing_address := req.billingAddress.getD req.shippingAddress
              payment_method := req.paymentMethodType
              payment_status := .pending
              status := .pending
              subtotal := subtotal
              tax := tax
              shipping := shipping
              discount := 0
              total := total
              currency := "USD"
              tracking_number := none
              notes := req.notes
              timeline := [] }
          (.ok order,
           { products := decrementStocks db.products cart.items
             cart := some { cart with items := [], total_items := 0, total_price := 0 }
             orders := db.orders ++ [order] })

/-! ## Cancellation handler (`PUT /api/orders/:id/cancel`) -/

/-- Stock-restoration loop of the cancel handler: for each order line,
`Product.findByPk(item.product)` and, when the row exists,
`stock: product.stock + item.quantity` (again a keyed row update). -/
def restoreStocks (ps : List Product) : List OrderItem → List Product
  | [] => ps
  | it :: rest =>
    restoreStocks
      (ps.map (fun p =>
        if p.pid == it.product then { p with stock := p.stock + it.quantity } else p))
      rest

/-- Total quantity the order lines carry for one product id; the net
effect of the restoration loop on that product's stock. -/
def itemsQtyFor : List OrderItem → Nat → Int
  | [], _ => 0
  | it :: rest, pid =>
    (if it.product == pid then it.quantity else 0) + itemsQtyFor rest pid

/-- Note recorded by the cancel handler:
`reason || 'Order cancelled by customer'` (a supplied empty string is
falsy and also falls back). -/
def cancelNote : Option String → String
  | some r => if r == "" then "Order cancelled by customer" else r
  | none => "Order cancelled by customer"

/-- Cancel handler, modelled from the point where the order row has
been fetched (the 404 path concerns absent rows): reject when
`canBeCancelled` is false, otherwise restore stock, run
`updateStatus('cancelled', reason || 'Order cancelled by customer',
'customer')` and save. -/
def cancelOrder (ps : List Product) (o : Order) (reason : Option String)
    (ts : Int) (eid : String) : Option ErrResp × Order × List Product :=
  if o.canBeCancelled = false then
    (some ⟨400, "Order cannot be cancelled in current status"⟩, o, ps)
  else
    (none, Order.updateStatus o .cancelled (cancelNote reason) "customer" ts eid,
     restoreStocks ps o.items)

/-! ## Return handler (`PUT /api/orders/:id/return`) -/

/-- Return handler, modelled from the fetched order row: the body
validators require a non-empty (trimmed) reason and an array of items
(`retItems`, type-level here); then reject when `canBeReturned` is
false, otherwise run `updateStatus('returned', 'Return requested: ' +
reason, 'customer')`.  The product table is never touched. -/
def returnOrder (ps : List Product) (o : Order) (reason : String) (retItems : List Nat)
    (ts : Int) (eid : String) : Option ErrResp × Order × List Product :=
  if reason == "" then (some ⟨400, "Validation failed"⟩, o, ps)
  else if o.canBeReturned = false then
    (some ⟨400, "Order cannot be returned in current status"⟩, o, ps)
  else
    (none, Order.updateStatus o .returned ("Return requested: " ++ reason) "customer" ts eid,
     ps)

/-! ## Admin status update (`PUT /api/orders/:id/status`) -/

/-- Validator `body('note').optional().trim().isLength({max: 200})`. -/
def noteOk : Option String → Bool
  | none => true
  | some n => n.length ≤ 200

/-- Validator `body('trackingNumber').optional().trim().isLength({max: 100})`. -/
def trackingOk : Option String → Bool
  | none => true
  | some t => t.length ≤ 100

/-- Admin status-update handler, modelled from the fetched order row:
the status argument is already a member of the six-value enumeration
(the `isIn` validator), the optional note and tracking number are
length-checked, a truthy (non-empty) tracking number is written, and
`updateStatus(status, note, 'admin')` runs unconditionally — an absent
note reaches `addTimelineEntry` as the empty-string default. -/
def adminUpdateStatus (o : Order) (status : OrderStatus) (note trackingNumber : Option String)
    (ts : Int) (eid : String) : Option ErrResp × Order :=
  if noteOk note = false then (some ⟨400, "Validation failed"⟩, o)
  else if trackingOk trackingNumber = false then (some ⟨400, "Validation failed"⟩, o)
  else
    let o1 :=
      match trackingNumber with
      | some t => if t != "" then { o with tracking_number := some t } else o
      | none => o
    (none, Order.updateStatus o1 status (note.getD "") "admin" ts eid)

/-! ## Public tracking (`GET /api/orders/track/:orderNumber`) -/

/-- Response of the public tracking endpoint for a found order. -/
structure TrackResp where
  status : OrderStatus
  paymentStatus : PaymentStatus
  trackingNumber : Option String
  timeline : List TimelineEntry
  estimatedDelivery : Option Int
deriving DecidableEq

/-- Tracking handler for an existing order: timeline via
`getStatusHistory`, and `estimatedDelivery = status === 'shipped' ?
new Date(Date.now() + 3*24*60*60*1000) : null`. -/
def trackOrder (o : Order) (now : Int) : TrackResp :=
  { status := o.status
    paymentStatus := o.payment_status
    trackingNumber := o.tracking_number
    timeline := o.timeline
    estimatedDelivery :=
      if o.status == OrderStatus.shipped then some (now + 3 * 24 * 60 * 60 * 1000) else none }

/-! ## Derived checkout predicates used in claim statements -/

/-- Availability of one cart line against the product table: the line's
product resolves and is active (the conditions of the loop's first
early return). -/
def lineAvailable (ps : List Product) (ci : CartItem) : Bool :=
  match findProduct ps ci.product with
  | some p => p.is_active
  | none => false

/-- Overdraw of one cart line: the line's product resolves and its
stock is below the requested quantity (the condition of the loop's
second early return). -/
def lineOverdraw (ps : List Product) (ci : CartItem) : Bool :=
  match findProduct ps ci.product with
  | some p => decide (p.stock < ci.quantity)
  | none => false

/-- Recomputation of an order's subtotal from its stored lines
(`price * quantity` summed). -/
def orderSubtotal : List OrderItem → ℚ
  | [] => 0
  | it :: rest => it.price * (it.quantity : ℚ) + orderSubtotal rest

/-- Replacement of the price snapshots stored in the cart lines,
leaving product ids and quantities alone: used to state that checkout
ignores the snapshot prices. -/
def repriceCart (db : DB) (f : CartItem → ℚ) : DB :=
  { db with cart := db.cart.map (fun c =>
      { c with items := c.items.map (fun ci => { ci with price := f ci }) }) }

/-! ## Concrete sample rows for the witness theorems -/

/-- Valid shipping address. -/
def addr0 : Address :=
  { name := "Ada", street := "1 Main St", city := "Springfield",
    state := "IL", zipCode := "62701", country := "USA" }

/-- Valid checkout body. -/
def req0 : CheckoutReq :=
  { shippingAddress := addr0, billingAddress := none,
    paymentMethodType := "card", notes := none }

/-- Product priced 120 with stock 5. -/
def prod120 : Product :=
  { pid := 1, name := "Widget", price := 120, stock := 5, is_active := true, images := [] }

/-- Cart holding one unit of `prod120`. -/
def cart120 : Cart :=
  { items := [{ product := 1, quantity := 1, price := 120, added_at := 0 }],
    total_items := 1, total_price := 120 }

/-- Database before the subtotal-120 checkout. -/
def db120 : DB := { products := [prod120], cart := some cart120, orders := [] }

/-- Order produced by the subtotal-120 checkout: shipping 0,
tax 9.60 = 48/5, total 129.60 = 648/5. -/
def ord120 : Order :=
  { user_id := 7
    order_number := "ORD-" ++ toString (0 : Int) ++ "-" ++ padStart4 (toString (1 : Nat))
    items := [{ product := 1, name := "Widget", price := 120, quantity := 1, image := "" }]
    shipping_address := addr0, billing_address := addr0, payment_method := "card"
    payment_status := .pending, status := .pending
    subtotal := 120, tax := 48/5, shipping := 0, discount := 0, total := 648/5
    currency := "USD", tracking_number := none, notes := none, timeline := [] }

/-- Database after the subtotal-120 checkout: stock decremented, cart
cleared, order row appended. -/
def db120after : DB :=
  { products := [{ pid := 1, name := "Widget", price := 120, stock := 4,
                   is_active := true, images := [] }]
    cart := some { items := [], total_items := 0, total_price := 0 }
    orders := [ord120] }

/-- Product priced 40 with stock 5. -/
def prod40 : Product :=
  { pid := 1, name := "Gadget", price := 40, stock := 5, is_active := true, images := [] }

/-- Cart holding one unit of `prod40`. -/
def cart40 : Cart :=
  { items := [{ product := 1, quantity := 1, price := 40, added_at := 0 }],
    total_items := 1, total_price := 40 }

/-- Database before the subtotal-40 checkout. -/
def db40 : DB := { products := [prod40], cart := some cart40, orders := [] }

/-- Order produced by the subtotal-40 checkout: shipping 10,
tax 3.20 = 16/5, total 53.20 = 266/5. -/
def ord40 : Order :=
  { user_id := 7
    order_number := "ORD-" ++ toString (0 : Int) ++ "-" ++ padStart4 (toString (1 : Nat))
    items := [{ product := 1, name := "Gadget", price := 40, quantity := 1, image := "" }]
    shipping_address := addr0, billing_address := addr0, payment_method := "card"
    payment_status := .pending, status := .pending
    subtotal := 40, tax := 16/5, shipping := 10, discount := 0, total := 266/5
    currency := "USD", tracking_number := none, notes := none, timeline := [] }

/-- Database after the subtotal-40 checkout. -/
def db40after : DB :=
  { products := [{ pid := 1, name := "Gadget", price := 40, stock := 4,
                   is_active := true, images := [] }]
    cart := some { items := [], total_items := 0, total_price := 0 }
    orders := [ord40] }

/-- Empty database (no cart row) for the empty-cart witness. -/
def dbNoCart : DB := { products := [], cart := none, orders := [] }

/-- Inactive product named A. -/
def prodInactive : Product :=
  { pid := 1, name := "A", price := 10, stock := 5, is_active := false, images := [] }

/-- Active product named B with stock 1. -/
def prodLow : Product :=
  { pid := 2, name := "B", price := 10, stock := 1, is_active := true, images := [] }

/-- Cart whose first line hits the inactive product and whose second
line overdraws product B. -/
def cartMixed : Cart :=
  { items := [{ product := 1, quantity := 1, price := 10, added_at := 0 },
              { product := 2, quantity := 5, price := 10, added_at := 0 }],
    total_items := 6, total_price := 60 }

/-- Database for the mixed unavailable/overdraw counterexample. -/
def dbMixed : DB := { products := [prodInactive, prodLow], cart := some cartMixed, orders := [] }

/-- Cart with a single line overdrawing product B. -/
def cartOver : Cart :=
  { items := [{ product := 2, quantity := 5, price := 10, added_at := 0 }],
    total_items := 5, total_price := 50 }

/-- Database for the insufficient-stock witness. -/
def dbOver : DB := { products := [prodLow], cart := some cartOver, orders := [] }

/-- Sample order with the given statuses: one line of two units of
product 3, money fields zero, empty timeline. -/
def order0 (st : OrderStatus) (pay : PaymentStatus) : Order :=
  { user_id := 1, order_number := "ORD-1-0001"
    items := [{ product := 3, name := "Thing", price := 0, quantity := 2, image := "" }]
    shipping_address := addr0, billing_address := addr0, payment_method := "card"
    payment_status := pay, status := st
    subtotal := 0, tax := 0, shipping := 0, discount := 0, total := 0
    currency := "USD", tracking_number := none, notes := none, timeline := [] }

/-- Product table for the status-operation witnesses: product 3 with
stock 10. -/
def prods0 : List Product :=
  [{ pid := 3, name := "Thing", price := 0, stock := 10, is_active := true, images := [] }]

/-- Sample cart for the cart-invariant witness: one line, product 5,
quantity 2, price 3. -/
def cartW : Cart :=
  { items := [{ product := 5, quantity := 2, price := 3, added_at := 0 }],
    total_items := 2, total_price := 6 }

/-! ## Supporting lemmas -/

lemma updateStatus_timeline (o : Order) (st : OrderStatus) (note actor : String)
    (ts : Int) (eid : String) :
    (Order.updateStatus o st note actor ts eid).timeline =
      o.timeline ++ [{ status := st, note := note, actor := actor,
                       timestamp := ts, id := eid }] := rfl

lemma updateStatus_status (o : Order) (st : OrderStatus) (note actor : String)
    (ts : Int) (eid : String) :
    (Order.updateStatus o st note actor ts eid).status = st := rfl

lemma canBeCancelled_iff (o : Order) :
    o.canBeCancelled = true ↔ (o.status = .pending ∨ o.status = .processing) := by
  cases h : o.status <;> simp [Order.canBeCancelled, h, List.contains]

lemma canBeReturned_iff (o : Order) :
    o.canBeReturned = true ↔ (o.status = .delivered ∧ o.payment_status = .paid) := by
  simp [Order.canBeReturned, Bool.and_eq_true, beq_iff_eq]

lemma restoreStocks_eq_map (items : List OrderItem) (ps : List Product) :
    restoreStocks ps items =
      ps.map (fun p => { p with stock := p.stock + itemsQtyFor items p.pid }) := by
  induction items generalizing ps with
  | nil =>
    simp only [restoreStocks, itemsQtyFor, add_zero]
    exact (List.map_id ps).symm
  | cons it rest ih =>
    rw [restoreStocks, ih, List.map_map]
    refine List.map_congr_left fun p _ => ?_
    by_cases h : p.pid = it.product
    · simp [Function.comp, h, itemsQtyFor, beq_iff_eq, add_assoc]
    · simp [Function.comp, h, itemsQtyFor, beq_iff_eq, Ne.symm h]

lemma round2_eq (q : ℚ) (z : ℤ) (h1 : (z : ℚ) ≤ q * 100 + 1/2)
    (h2 : q * 100 + 1/2 < (z : ℚ) + 1) : round2 q = (z : ℚ) / 100 := by
  unfold round2 jsRound
  rw [Int.floor_eq_iff.mpr ⟨h1, h2⟩]

lemma postOrders_ok_inv {db : DB} {req : CheckoutReq} {uid : Nat} {now : Int}
    {o : Order} {db' : DB} (h : postOrders db req uid now = (.ok o, db')) :
    o.discount = 0 ∧
    o.shipping = (if o.subtotal ≥ 50 then (0 : ℚ) else 10) ∧
    o.tax = round2 (o.subtotal * (8 / 100)) ∧
    o.total = o.subtotal + o.shipping + o.tax := by
  unfold postOrders at h
  split at h
  · exact absurd h (by simp)
  · split at h
    · exact absurd h (by simp)
    · split at h
      · exact absurd h (by simp)
      · split at h
        · exact absurd h (by simp)
        · simp only [Prod.mk.injEq, Except.ok.injEq] at h
          obtain ⟨h1, h2⟩ := h
          subst h1
          exact ⟨rfl, rfl, rfl, rfl⟩

/-! ## Claim theorems -/

/-- C9: for every public tracking request on an existing order, the
response's estimatedDelivery is non-null exactly when the order is
shipped, in which case it equals the query time plus three days, so two
queries at different times on the same shipped order return different
estimates. -/
theorem claim9_tracking_estimate (o : Order) (now : Int) :
    ((trackOrder o now).estimatedDelivery ≠ none ↔ o.status = .shipped) ∧
    (o.status = .shipped →
      (trackOrder o now).estimatedDelivery = some (now + 3 * 24 * 60 * 60 * 1000)) ∧
    (∀ n1 n2 : Int, n1 ≠ n2 → o.status = .shipped →
      (trackOrder o n1).estimatedDelivery ≠ (trackOrder o n2).estimatedDelivery) := by
  cases h : o.status <;> simp_all [trackOrder]

/-- C9 witness: a shipped order queried at time 100 is estimated for
time 100 plus three days of milliseconds. -/
theorem claim9_witness :
    (trackOrder (order0 .shipped .paid) 100).estimatedDelivery =
      some (100 + 3 * 24 * 60 * 60 * 1000) :=
  (claim9_tracking_estimate (order0 .shipped .paid) 100).2.1 rfl

/-- C3: a checkout request (passing body validation) by a user whose
cart row is missing or empty fails with 400 "Cart is empty" and leaves
the database — products, cart, orders — exactly as it was. -/
theorem claim3_empty_cart (db : DB) (req : CheckoutReq) (uid : Nat) (now : Int)
    (hreq : validCheckoutReq req = true)
    (hempty : db.cart = none ∨ ∃ c, db.cart = some c ∧ c.items = []) :
    postOrders db req uid now = (.error ⟨400, "Cart is empty"⟩, db) := by
  unfold postOrders
  rcases hempty with h | ⟨c, hc, hitems⟩
  · simp [hreq, h]
  · simp [hreq, hc, hitems]

/-- C3 witness: the empty-cart rejection at a concrete database with no
cart row. -/
theorem claim3_witness :
    postOrders dbNoCart req0 1 0 = (.error ⟨400, "Cart is empty"⟩, dbNoCart) :=
  claim3_empty_cart dbNoCart req0 1 0 (by decide) (Or.inl rfl)

/-- C4: customer cancellation succeeds exactly when the order is
pending or processing; on success each line's quantity is added back to
the matching product's stock, the status becomes cancelled and exactly
one timeline entry with actor customer is appended; a shipped order is
rejected with 400 and order and stock are untouched. -/
theorem claim4_cancel_policy (ps : List Product) (o : Order) (reason : Option String)
    (ts : Int) (eid : String) :
    ((cancelOrder ps o reason ts eid).1 = none ↔
      (o.status = .pending ∨ o.status = .processing)) ∧
    ((cancelOrder ps o reason ts eid).1 = none →
      (cancelOrder ps o reason ts eid).2.1.status = .cancelled ∧
      (cancelOrder ps o reason ts eid).2.2 =
        ps.map (fun p => { p with stock := p.stock + itemsQtyFor o.items p.pid }) ∧
      ∃ e, (cancelOrder ps o reason ts eid).2.1.timeline = o.timeline ++ [e] ∧
        e.actor = "customer") ∧
    (o.status = .shipped →
      (cancelOrder ps o reason ts eid).1 =
        some ⟨400, "Order cannot be cancelled in current status"⟩ ∧
      (cancelOrder ps o reason ts eid).2.1 = o ∧
      (cancelOrder ps o reason ts eid).2.2 = ps) := by
  by_cases hc : o.canBeCancelled = true
  · have hst := (canBeCancelled_iff o).mp hc
    refine ⟨by simp [cancelOrder, hc, hst], fun _ => ?_, fun hs => ?_⟩
    · refine ⟨by simp [cancelOrder, hc, updateStatus_status],
              by simp [cancelOrder, hc, restoreStocks_eq_map], ?_⟩
      exact ⟨{ status := .cancelled, note := cancelNote reason, actor := "customer",
               timestamp := ts, id := eid },
             by simp [cancelOrder, hc, updateStatus_timeline], rfl⟩
    · rcases hst with h | h <;> rw [hs] at h <;> exact absurd h (by simp)
  · have hcf : o.canBeCancelled = false := by simpa using hc
    have hst : ¬(o.status = .pending ∨ o.status = .processing) := fun h =>
      hc ((canBeCancelled_iff o).mpr h)
    refine ⟨by simp [cancelOrder, hcf, hst],
            fun h => absurd h (by simp [cancelOrder, hcf]), fun _ => ?_⟩
    exact ⟨by simp [cancelOrder, hcf], by simp [cancelOrder, hcf], by simp [cancelOrder, hcf]⟩

/-- C4 witness: cancelling a pending two-unit order restores the stock
of product 3 from 10 to 12 and appends the customer entry. -/
theorem claim4_witness :
    (cancelOrder prods0 (order0 .pending .pending) none 3 "e1").1 = none ∧
    (cancelOrder prods0 (order0 .pending .pending) none 3 "e1").2.1.status = .cancelled ∧
    (cancelOrder prods0 (order0 .pending .pending) none 3 "e1").2.2 =
      prods0.map (fun p =>
        { p with stock := p.stock + itemsQtyFor (order0 .pending .pending).items p.pid }) := by
  have h := claim4_cancel_policy prods0 (order0 .pending .pending) none 3 "e1"
  have hok : (cancelOrder prods0 (order0 .pending .pending) none 3 "e1").1 = none :=
    h.1.mpr (Or.inl rfl)
  exact ⟨hok, (h.2.1 hok).1, (h.2.1 hok).2.1⟩

/-- C5: a return request with a non-empty (trimmed) reason succeeds
exactly when the order is delivered and paid; on success the status
becomes returned, one timeline entry is appended and no product stock
is touched; a processing order is always rejected. -/
theorem claim5_return_policy (ps : List Product) (o : Order) (reason : String)
    (retItems : List Nat) (ts : Int) (eid : String) :
    (reason ≠ "" →
      ((returnOrder ps o reason retItems ts eid).1 = none ↔
        (o.status = .delivered ∧ o.payment_status = .paid))) ∧
    ((returnOrder ps o reason retItems ts eid).1 = none →
      (returnOrder ps o reason retItems ts eid).2.1.status = .returned ∧
      (∃ e, (returnOrder ps o reason retItems ts eid).2.1.timeline = o.timeline ++ [e]) ∧
      (returnOrder ps o reason retItems ts eid).2.2 = ps) ∧
    (o.status = .processing → (returnOrder ps o reason retItems ts eid).1 ≠ none) := by
  by_cases hr : reason = ""
  · refine ⟨fun h => absurd hr h, ?_, ?_⟩
    · intro h
      exact absurd h (by simp [returnOrder, hr])
    · intro _
      simp [returnOrder, hr]
  · by_cases hret : o.canBeReturned = true
    · have hst := (canBeReturned_iff o).mp hret
      refine ⟨fun _ => by simp [returnOrder, hr, hret, hst], ?_, ?_⟩
      · intro _
        exact ⟨by simp [returnOrder, hr, hret, updateStatus_status],
               ⟨{ status := .returned, note := "Return requested: " ++ reason,
                  actor := "customer", timestamp := ts, id := eid },
                by simp [returnOrder, hr, hret, updateStatus_timeline]⟩,
               by simp [returnOrder, hr, hret]⟩
      · intro hp
        rw [hp] at hst
        exact absurd hst.1 (by simp)
    · have hrf : o.canBeReturned = false := by simpa using hret
      have hst : ¬(o.status = .delivered ∧ o.payment_status = .paid) := fun h =>
        hret ((canBeReturned_iff o).mpr h)
      refine ⟨fun _ => by simp [returnOrder, hr, hrf, hst], ?_, ?_⟩
      · intro h
        exact absurd h (by simp [returnOrder, hr, hrf])
      · intro _
        simp [returnOrder, hr, hrf]

/-- C5 witness: a delivered and paid order is returned successfully,
while the same request on a processing order is rejected. -/
theorem claim5_witness :
    (returnOrder prods0 (order0 .delivered .paid) "Damaged" [] 3 "e2").1 = none ∧
    (returnOrder prods0 (order0 .delivered .paid) "Damaged" [] 3 "e2").2.1.status = .returned ∧
    (returnOrder prods0 (order0 .processing .paid) "Damaged" [] 3 "e2").1 ≠ none := by
  have h := claim5_return_policy prods0 (order0 .delivered .paid) "Damaged" [] 3 "e2"
  have h2 := claim5_return_policy prods0 (order0 .processing .paid) "Damaged" [] 3 "e2"
  have hok : (returnOrder prods0 (order0 .delivered .paid) "Damaged" [] 3 "e2").1 = none :=
    (h.1 (by decide)).mpr ⟨rfl, rfl⟩
  exact ⟨hok, (h.2.1 hok).1, h2.2.2 rfl⟩

/-- C6: each of the three status mutations — customer cancel, customer
return, admin status update — leaves the existing timeline a prefix of
the new one, appends exactly one entry when it succeeds and nothing
when it fails, so timeline length never decreases and prior entries are
never edited. -/
theorem claim6_timeline_append_only (ps : List Product) (o : Order)
    (reason : Option String) (retReason : String) (retItems : List Nat)
    (st : OrderStatus) (note tn : Option String) (ts : Int) (eid : String) :
    (o.timeline <+: (cancelOrder ps o reason ts eid).2.1.timeline ∧
      ((cancelOrder ps o reason ts eid).1 = none →
        (cancelOrder ps o reason ts eid).2.1.timeline.length = o.timeline.length + 1) ∧
      ((cancelOrder ps o reason ts eid).1 ≠ none →
        (cancelOrder ps o reason ts eid).2.1.timeline = o.timeline)) ∧
    (o.timeline <+: (returnOrder ps o retReason retItems ts eid).2.1.timeline ∧
      ((returnOrder ps o retReason retItems ts eid).1 = none →
        (returnOrder ps o retReason retItems ts eid).2.1.timeline.length =
          o.timeline.length + 1) ∧
      ((returnOrder ps o retReason retItems ts eid).1 ≠ none →
        (returnOrder ps o retReason retItems ts eid).2.1.timeline = o.timeline)) ∧
    (o.timeline <+: (adminUpdateStatus o st note tn ts eid).2.timeline ∧
      ((adminUpdateStatus o st note tn ts eid).1 = none →
        (adminUpdateStatus o st note tn ts eid).2.timeline.length = o.timeline.length + 1) ∧
      ((adminUpdateStatus o st note tn ts eid).1 ≠ none →
        (adminUpdateStatus o st note tn ts eid).2.timeline = o.timeline)) := by
  refine ⟨?_, ?_, ?_⟩
  · unfold cancelOrder
    by_cases hc : o.canBeCancelled = true
    · simp [hc, updateStatus_timeline, List.prefix_append]
    · have hcf : o.canBeCancelled = false := by simpa using hc
      simp [hcf]
  · unfold returnOrder
    by_cases hr : retReason = ""
    · simp [hr]
    · by_cases hret : o.canBeReturned = true
      · simp [hr, hret, updateStatus_timeline, List.prefix_append]
      · have hrf : o.canBeReturned = false := by simpa using hret
        simp [hr, hrf]
  · by_cases hn : noteOk note = true
    · by_cases ht : trackingOk tn = true
      · cases tn with
        | none =>
          have h : adminUpdateStatus o st note none ts eid =
              (none, Order.updateStatus o st (note.getD "") "admin" ts eid) := by
            simp [adminUpdateStatus, hn, ht]
          rw [h, updateStatus_timeline]
          exact ⟨List.prefix_append _ _, fun _ => by simp, fun hne => absurd rfl hne⟩
        | some t =>
          by_cases hts : t = ""
          · subst hts
            have h : adminUpdateStatus o st note (some "") ts eid =
                (none, Order.updateStatus o st (note.getD "") "admin" ts eid) := by
              simp [adminUpdateStatus, hn, ht]
            rw [h, updateStatus_timeline]
            exact ⟨List.prefix_append _ _, fun _ => by simp, fun hne => absurd rfl hne⟩
          · have h : adminUpdateStatus o st note (some t) ts eid =
                (none, Order.updateStatus { o with tracking_number := some t } st
                  (note.getD "") "admin" ts eid) := by
              simp [adminUpdateStatus, hn, ht, hts]
            rw [h, updateStatus_timeline]
            exact ⟨List.prefix_append _ _, fun _ => by simp, fun hne => absurd rfl hne⟩
      · have htf : trackingOk tn = false := by simpa using ht
        have h : adminUpdateStatus o st note tn ts eid =
            (some ⟨400, "Validation failed"⟩, o) := by
          simp [adminUpdateStatus, htf]
        rw [h]
        refine ⟨List.prefix_rfl, ?_, fun _ => rfl⟩
        intro hno
        simp at hno
    · have hnf : noteOk note = false := by simpa using hn
      have h : adminUpdateStatus o st note tn ts eid =
          (some ⟨400, "Validation failed"⟩, o) := by
        simp [adminUpdateStatus, hnf]
      rw [h]
      refine ⟨List.prefix_rfl, ?_, fun _ => rfl⟩
      intro hno
      simp at hno

/-- C6 witness: a successful admin update on a pending order grows the
timeline from zero entries to one. -/
theorem claim6_witness :
    (adminUpdateStatus (order0 .pending .pending) .shipped none none 3 "e3").1 = none ∧
    (adminUpdateStatus (order0 .pending .pending) .shipped none none 3 "e3").2.timeline.length =
      (order0 .pending .pending).timeline.length + 1 := by
  have h := claim6_timeline_append_only prods0 (order0 .pending .pending) none "r" []
    .shipped none none 3 "e3"
  exact ⟨rfl, h.2.2.2.1 rfl⟩

/-- C7 counterexample: the claim predicts that an admin update without
a note appends a timeline entry carrying the canned per-status message;
on a concrete pending order updated to shipped, the appended entry's
note is the empty string, not "Order has been shipped" — the canned
table in `updateStatus` is computed only after `addTimelineEntry` has
run, so it never reaches the entry. -/
theorem claim7_counterexample :
    (adminUpdateStatus (order0 .pending .pending) .shipped none none 0 "e4").2.timeline =
      [{ status := .shipped, note := "", actor := "admin", timestamp := 0, id := "e4" }] ∧
    statusMessage .shipped = "Order has been shipped" ∧
    "" ≠ statusMessage .shipped := by
  exact ⟨rfl, rfl, by decide⟩

/-- C7 (amended): for every admin status update passing validation on
an existing order, the handler unconditionally sets the requested
status, appends one timeline entry with actor admin whose note is the
supplied note or the empty string when none is supplied, never touches
paymentStatus, and writes the tracking number exactly when a non-empty
one is supplied. -/
theorem claim7_admin_update (o : Order) (st : OrderStatus) (note tn : Option String)
    (ts : Int) (eid : String)
    (hnote : noteOk note = true) (htn : trackingOk tn = true) :
    (adminUpdateStatus o st note tn ts eid).1 = none ∧
    (adminUpdateStatus o st note tn ts eid).2.status = st ∧
    (adminUpdateStatus o st note tn ts eid).2.payment_status = o.payment_status ∧
    (adminUpdateStatus o st note tn ts eid).2.timeline =
      o.timeline ++ [{ status := st, note := note.getD "", actor := "admin",
                       timestamp := ts, id := eid }] ∧
    (∀ t, tn = some t → t ≠ "" →
      (adminUpdateStatus o st note tn ts eid).2.tracking_number = some t) ∧
    (tn = none →
      (adminUpdateStatus o st note tn ts eid).2.tracking_number = o.tracking_number) := by
  cases tn with
  | none =>
    have h : adminUpdateStatus o st note none ts eid =
        (none, Order.updateStatus o st (note.getD "") "admin" ts eid) := by
      simp [adminUpdateStatus, hnote, htn]
    rw [h]
    refine ⟨rfl, rfl, rfl, rfl, ?_, fun _ => rfl⟩
    intro t ht
    exact absurd ht (by simp)
  | some t =>
    by_cases hts : t = ""
    · subst hts
      have h : adminUpdateStatus o st note (some "") ts eid =
          (none, Order.updateStatus o st (note.getD "") "admin" ts eid) := by
        simp [adminUpdateStatus, hnote, htn]
      rw [h]
      refine ⟨rfl, rfl, rfl, rfl, ?_, ?_⟩
      · intro t' ht' hne
        rw [Option.some.injEq] at ht'
        rw [← ht'] at hne
        exact absurd rfl hne
      · intro hn0
        exact absurd hn0 (by simp)
    · have h : adminUpdateStatus o st note (some t) ts eid =
          (none, Order.updateStatus { o with tracking_number := some t } st
            (note.getD "") "admin" ts eid) := by
        simp [adminUpdateStatus, hnote, htn, hts]
      rw [h]
      refine ⟨rfl, rfl, rfl, rfl, ?_, ?_⟩
      · intro t' ht' _
        rw [Option.some.injEq] at ht'
        rw [← ht']
        rfl
      · intro hn0
        exact absurd hn0 (by simp)

/-- C1: every order the checkout handler creates stores
`total = subtotal + shipping + tax - discount` with discount 0,
shipping 0 above the 50 threshold and 10 below it, and
tax = round(subtotal * 0.08, 2); in particular subtotal 120 gives
shipping 0, tax 9.60 and total 129.60, and subtotal 40 gives
shipping 10, tax 3.20 and total 53.20. -/
theorem claim1_checkout_totals (db : DB) (req : CheckoutReq) (uid : Nat) (now : Int)
    (o : Order) (db' : DB) (h : postOrders db req uid now = (.ok o, db')) :
    o.discount = 0 ∧
    o.total = o.subtotal + o.shipping + o.tax - o.discount ∧
    o.shipping = (if o.subtotal ≥ 50 then (0 : ℚ) else 10) ∧
    o.tax = round2 (o.subtotal * (8 / 100)) ∧
    (o.subtotal = 120 → o.shipping = 0 ∧ o.tax = 9.6 ∧ o.total = 129.6) ∧
    (o.subtotal = 40 → o.shipping = 10 ∧ o.tax = 3.2 ∧ o.total = 53.2) := by
  obtain ⟨hd, hs, ht, htot⟩ := postOrders_ok_inv h
  refine ⟨hd, by rw [htot, hd, sub_zero], hs, ht, ?_, ?_⟩
  · intro h120
    have hs0 : o.shipping = 0 := by rw [hs, h120]; norm_num
    have ht0 : o.tax = 9.6 := by
      rw [ht, h120, round2_eq ((120 : ℚ) * (8 / 100)) 960 (by norm_num) (by norm_num)]
      norm_num
    exact ⟨hs0, ht0, by rw [htot, h120, hs0, ht0]; norm_num⟩
  · intro h40
    have hs0 : o.shipping = 10 := by rw [hs, h40]; norm_num
    have ht0 : o.tax = 3.2 := by
      rw [ht, h40, round2_eq ((40 : ℚ) * (8 / 100)) 320 (by norm_num) (by norm_num)]
      norm_num
    exact ⟨hs0, ht0, by rw [htot, h40, hs0, ht0]; norm_num⟩

lemma checkout120_eval : postOrders db120 req0 7 0 = (.ok ord120, db120after) := by
  have hreq : validCheckoutReq ⟨addr0, none, "card", none⟩ = true := by decide
  have htax : round2 (48 / 5 : ℚ) = 48 / 5 := by
    rw [round2_eq (48 / 5 : ℚ) 960 (by norm_num) (by norm_num)]
    norm_num
  norm_num [postOrders, db120, cart120, prod120, req0, ord120, db120after,
    validateItems, findProduct, List.find?, decrementStocks, List.headD,
    hreq, htax]

lemma checkout40_eval : postOrders db40 req0 7 0 = (.ok ord40, db40after) := by
  have hreq : validCheckoutReq ⟨addr0, none, "card", none⟩ = true := by decide
  have htax : round2 (16 / 5 : ℚ) = 16 / 5 := by
    rw [round2_eq (16 / 5 : ℚ) 320 (by norm_num) (by norm_num)]
    norm_num
  norm_num [postOrders, db40, cart40, prod40, req0, ord40, db40after,
    validateItems, findProduct, List.find?, decrementStocks, List.headD,
    hreq, htax]

/-- C1 witness: the two concrete checkouts of the claim — subtotal 120
(free shipping) and subtotal 40 (flat 10 shipping). -/
theorem claim1_witness :
    ord120.subtotal = 120 ∧ ord120.shipping = 0 ∧ ord120.tax = 9.6 ∧
    ord120.total = 129.6 ∧
    ord120.total = ord120.subtotal + ord120.shipping + ord120.tax - ord120.discount ∧
    ord40.subtotal = 40 ∧ ord40.shipping = 10 ∧ ord40.tax = 3.2 ∧ ord40.total = 53.2 := by
  have h1 := claim1_checkout_totals db120 req0 7 0 ord120 db120after checkout120_eval
  have h2 := claim1_checkout_totals db40 req0 7 0 ord40 db40after checkout40_eval
  have hs1 : ord120.subtotal = 120 := by norm_num [ord120]
  have hs2 : ord40.subtotal = 40 := by norm_num [ord40]
  obtain ⟨e1, e2, e3⟩ := h1.2.2.2.2.1 hs1
  obtain ⟨f1, f2, f3⟩ := h2.2.2.2.2.2 hs2
  exact ⟨hs1, e1, e2, e3, h1.2.1, hs2, f1, f2, f3⟩

lemma validateItems_insufficient (ps : List Product) (items : List CartItem)
    (havail : items.all (lineAvailable ps) = true)
    (hover : items.any (lineOverdraw ps) = true) :
    ∃ ci ∈ items, ∃ p, findProduct ps ci.product = some p ∧ p.stock < ci.quantity ∧
      validateItems ps items = .error (.insufficient p.name p.stock) := by
  induction items with
  | nil => simp at hover
  | cons ci rest ih =>
    rw [List.all_cons, Bool.and_eq_true] at havail
    obtain ⟨ha, harest⟩ := havail
    cases hfp : findProduct ps ci.product with
    | none =>
      simp only [lineAvailable, hfp] at ha
      exact absurd ha (by simp)
    | some p =>
      have hact : p.is_active = true := by
        simp only [lineAvailable, hfp] at ha
        exact ha
      by_cases hlt : p.stock < ci.quantity
      · refine ⟨ci, List.mem_cons_self ci rest, p, hfp, hlt, ?_⟩
        simp [validateItems, hfp, hact, hlt]
      · have hov : rest.any (lineOverdraw ps) = true := by
          rw [List.any_cons, Bool.or_eq_true] at hover
          rcases hover with h | h
          · simp only [lineOverdraw, hfp] at h
            simp [hlt] at h
          · exact h
        obtain ⟨ci', hm, p', h1, h2, h3⟩ := ih harest hov
        refine ⟨ci', List.mem_cons_of_mem ci hm, p', h1, h2, ?_⟩
        simp [validateItems, hfp, hact, hlt, h3]

lemma postOrders_ok_items {db : DB} {req : CheckoutReq} {uid : Nat} {now : Int}
    {o : Order} {db' : DB} (h : postOrders db req uid now = (.ok o, db')) :
    ∃ cart, db.cart = some cart ∧
      validateItems db.products cart.items = .ok (o.items, o.subtotal) := by
  unfold postOrders at h
  split at h
  · exact absurd h (by simp)
  · split at h
    · exact absurd h (by simp)
    · rename_i cart heq
      split at h
      · exact absurd h (by simp)
      · split at h
        · exact absurd h (by simp)
        · rename_i its sub heq2
          simp only [Prod.mk.injEq, Except.ok.injEq] at h
          obtain ⟨h1, h2⟩ := h
          subst h1
          exact ⟨cart, heq, by simpa using heq2⟩

lemma validateItems_prices (ps : List Product) (items : List CartItem)
    (its : List OrderItem) (sub : ℚ)
    (h : validateItems ps items = .ok (its, sub)) :
    (∀ it ∈ its, ∃ p, findProduct ps it.product = some p ∧ it.price = p.price) ∧
    sub = orderSubtotal its := by
  induction items generalizing its sub with
  | nil =>
    simp only [validateItems, Except.ok.injEq, Prod.mk.injEq] at h
    obtain ⟨h1, h2⟩ := h
    subst h1 h2
    simp [orderSubtotal]
  | cons ci rest ih =>
    simp only [validateItems] at h
    split at h
    · exact absurd h (by simp)
    · rename_i p hfp
      split at h
      · exact absurd h (by simp)
      · split at h
        · exact absurd h (by simp)
        · split at h
          · exact absurd h (by simp)
          · rename_i its' sub' hrest
            simp only [Except.ok.injEq, Prod.mk.injEq] at h
            obtain ⟨h1, h2⟩ := h
            subst h1 h2
            obtain ⟨ih1, ih2⟩ := ih its' sub' hrest
            have hpid : p.pid = ci.product := by
              have := List.find?_some hfp
              simpa [beq_iff_eq] using this
            constructor
            · intro it hit
              rcases List.mem_cons.mp hit with rfl | hit'
              · exact ⟨p, by simpa [hpid] using hfp, rfl⟩
              · exact ih1 it hit'
            · simp [orderSubtotal, ih2]

lemma validateItems_reprice (ps : List Product) (f : CartItem → ℚ) (items : List CartItem) :
    validateItems ps (items.map (fun ci => { ci with price := f ci })) =
      validateItems ps items := by
  induction items with
  | nil => rfl
  | cons ci rest ih =>
    simp only [List.map_cons, validateItems]
    cases hfp : findProduct ps ci.product with
    | none => simp [hfp]
    | some p =>
      by_cases hact : p.is_active = false
      · simp [hfp, hact]
      · by_cases hlt : p.stock < ci.quantity
        · simp [hfp, hact, hlt]
        · simp [hfp, hact, hlt, ih]

/-- C2 counterexample: the claim as stated — every checkout with some
line overdrawing stock fails with the insufficient-stock message — is
false: with an inactive product in an earlier cart line, the handler
returns the product-unavailable message instead, even though the
second line (five units of B against stock 1) overdraws.  The claim
would require the message "Only 1 items available for B". -/
theorem claim2_counterexample :
    (∃ ci ∈ cartMixed.items, ∃ p, findProduct dbMixed.products ci.product = some p ∧
      p.stock < ci.quantity) ∧
    postOrders dbMixed req0 7 0 =
      (.error ⟨400, "Product A is no longer available"⟩, dbMixed) ∧
    "Product A is no longer available" ≠ "Only 1 items available for B" := by
  refine ⟨⟨{ product := 2, quantity := 5, price := 10, added_at := 0 },
           List.mem_cons_of_mem _ (List.mem_cons_self _ _), prodLow, rfl, by decide⟩,
          ?_, by decide⟩
  rfl

/-- C2 (amended): for every checkout request (passing body validation)
whose cart lines all resolve to active products and at least one line
exceeds its product's stock, the handler fails with 400 and the
insufficient-stock message naming an overdrawn product and its stock,
and the database — cart, orders, product stock — is exactly as before. -/
theorem claim2_insufficient_stock (db : DB) (req : CheckoutReq) (uid : Nat) (now : Int)
    (cart : Cart)
    (hreq : validCheckoutReq req = true)
    (hcart : db.cart = some cart)
    (hne : cart.items ≠ [])
    (havail : cart.items.all (lineAvailable db.products) = true)
    (hover : cart.items.any (lineOverdraw db.products) = true) :
    ∃ ci ∈ cart.items, ∃ p, findProduct db.products ci.product = some p ∧
      p.stock < ci.quantity ∧
      postOrders db req uid now =
        (.error ⟨400, "Only " ++ toString p.stock ++ " items available for " ++ p.name⟩,
         db) := by
  obtain ⟨ci, hm, p, h1, h2, h3⟩ :=
    validateItems_insufficient db.products cart.items havail hover
  refine ⟨ci, hm, p, h1, h2, ?_⟩
  have hlen : (cart.items.length == 0) = false := by
    cases hi : cart.items with
    | nil => exact absurd hi hne
    | cons a l => simp [hi]
  unfold postOrders
  simp [hreq, hcart, hlen, h3, lineErrorMsg]

/-- C2 witness: a one-line cart ordering five units of product B whose
stock is 1 is rejected with the insufficient-stock message and the
database is unchanged. -/
theorem claim2_witness :
    validCheckoutReq req0 = true ∧ dbOver.cart = some cartOver ∧
    cartOver.items ≠ [] ∧
    cartOver.items.all (lineAvailable dbOver.products) = true ∧
    cartOver.items.any (lineOverdraw dbOver.products) = true ∧
    ∃ ci ∈ cartOver.items, ∃ p, findProduct dbOver.products ci.product = some p ∧
      p.stock < ci.quantity ∧
      postOrders dbOver req0 9 0 =
        (.error ⟨400, "Only " ++ toString p.stock ++ " items available for " ++ p.name⟩,
         dbOver) :=
  ⟨by decide, rfl, by decide, by decide, by decide,
   claim2_insufficient_stock dbOver req0 9 0 cartOver (by decide) rfl (by decide)
     (by decide) (by decide)⟩

/-- C10: checkout prices every order line and the subtotal from the
live product price read at checkout time and ignores the price snapshot
stored in the cart line: changing the snapshots arbitrarily leaves the
response unchanged, and every created line carries the current
`Product.price`. -/
theorem claim10_live_prices (db : DB) (req : CheckoutReq) (uid : Nat) (now : Int)
    (f : CartItem → ℚ) :
    (postOrders (repriceCart db f) req uid now).1 = (postOrders db req uid now).1 ∧
    (∀ o db', postOrders db req uid now = (.ok o, db') →
      (∀ it ∈ o.items, ∃ p, findProduct db.products it.product = some p ∧
        it.price = p.price) ∧
      o.subtotal = orderSubtotal o.items) := by
  constructor
  · by_cases hreq : validCheckoutReq req = false
    · simp [postOrders, repriceCart, hreq]
    · cases hc : db.cart with
      | none => simp [postOrders, repriceCart, hc, hreq]
      | some cart =>
        cases hi : cart.items with
        | nil => simp [postOrders, repriceCart, hc, hreq, hi]
        | cons a l =>
          have hval := validateItems_reprice db.products f cart.items
          rw [hi] at hval
          simp only [List.map_cons] at hval
          cases hv : validateItems db.products (a :: l) with
          | error e =>
            rw [hv] at hval
            simp [postOrders, repriceCart, hc, hreq, hi, hval, hv]
          | ok pr =>
            rw [hv] at hval
            simp [postOrders, repriceCart, hc, hreq, hi, hval, hv]
  · intro o db' h
    obtain ⟨cart, hcart, hval⟩ := postOrders_ok_items h
    exact validateItems_prices db.products cart.items o.items o.subtotal hval

/-- C10 witness: rewriting the snapshot price in the subtotal-120 cart
to 999 does not change the checkout response, whose single line is
priced at the live product price 120. -/
theorem claim10_witness :
    (postOrders (repriceCart db120 (fun _ => 999)) req0 7 0).1 =
      (postOrders db120 req0 7 0).1 ∧
    ∃ p, findProduct db120.products (1 : Nat) = some p ∧ (120 : ℚ) = p.price := by
  have h := claim10_live_prices db120 req0 7 0 (fun _ => 999)
  refine ⟨h.1, ?_⟩
  obtain ⟨hall, -⟩ := h.2 ord120 db120after checkout120_eval
  have hm : ({ product := 1, name := "Widget", price := 120, quantity := 1,
               image := "" } : OrderItem) ∈ ord120.items :=
    List.mem_cons_self _ _
  obtain ⟨p, hp1, hp2⟩ := hall _ hm
  exact ⟨p, hp1, hp2⟩

lemma cartInv_calc (c : Cart) (h1 : ∀ it ∈ c.items, 1 ≤ it.quantity)
    (h2 : (c.items.map (fun it => it.product)).Nodup) :
    cartInv (Cart.calculateTotals c) :=
  ⟨h1, h2, rfl, rfl⟩

lemma bumpQty_map_product (items : List CartItem) (pid : Nat) (q : Int) :
    (bumpQty items pid q).map (fun it => it.product) =
      items.map (fun it => it.product) := by
  induction items with
  | nil => rfl
  | cons it rest ih =>
    by_cases h : (it.product == pid) = true
    · simp [bumpQty, h]
    · simp [bumpQty, h, ih]

lemma bumpQty_quantity (items : List CartItem) (pid : Nat) (q : Int)
    (hq : 1 ≤ q) (h : ∀ it ∈ items, 1 ≤ it.quantity) :
    ∀ it ∈ bumpQty items pid q, 1 ≤ it.quantity := by
  induction items with
  | nil => simp [bumpQty]
  | cons it rest ih =>
    have hhead := h it (List.mem_cons_self it rest)
    have htail : ∀ x ∈ rest, 1 ≤ x.quantity := fun x hx => h x (List.mem_cons_of_mem it hx)
    by_cases hp : (it.product == pid) = true
    · intro x hx
      simp only [bumpQty, if_pos hp] at hx
      rcases List.mem_cons.mp hx with rfl | hx'
      · show 1 ≤ it.quantity + q
        omega
      · exact htail x hx'
    · intro x hx
      simp only [bumpQty, if_neg hp] at hx
      rcases List.mem_cons.mp hx with rfl | hx'
      · exact hhead
      · exact ih htail x hx'

lemma bumpQty_length (items : List CartItem) (pid : Nat) (q : Int) :
    (bumpQty items pid q).length = items.length := by
  have := congrArg List.length (bumpQty_map_product items pid q)
  simpa using this

lemma setQty_map_product (items : List CartItem) (pid : Nat) (q : Int) (pr : Option ℚ) :
    (setQty items pid q pr).map (fun it => it.product) =
      items.map (fun it => it.product) := by
  induction items with
  | nil => rfl
  | cons it rest ih =>
    by_cases h : (it.product == pid) = true
    · simp [setQty, h]
    · simp [setQty, h, ih]

lemma setQty_quantity (items : List CartItem) (pid : Nat) (q : Int) (pr : Option ℚ)
    (hq : 1 ≤ q) (h : ∀ it ∈ items, 1 ≤ it.quantity) :
    ∀ it ∈ setQty items pid q pr, 1 ≤ it.quantity := by
  induction items with
  | nil => simp [setQty]
  | cons it rest ih =>
    have hhead := h it (List.mem_cons_self it rest)
    have htail : ∀ x ∈ rest, 1 ≤ x.quantity := fun x hx => h x (List.mem_cons_of_mem it hx)
    by_cases hp : (it.product == pid) = true
    · intro x hx
      simp only [setQty, if_pos hp] at hx
      rcases List.mem_cons.mp hx with rfl | hx'
      · exact hq
      · exact htail x hx'
    · intro x hx
      simp only [setQty, if_neg hp] at hx
      rcases List.mem_cons.mp hx with rfl | hx'
      · exact hhead
      · exact ih htail x hx'

/-- C8: each cart operation — add (merging on an existing product),
quantity update, removal, clear — preserves the cart invariant: every
line has quantity at least 1, product ids are pairwise distinct, and
the stored totals equal the recomputation from the lines (sum of
quantities, and sum of stored line price times quantity). -/
theorem claim8_cart_invariant (c : Cart) (pid : Nat) (q : Int) (price : ℚ) (now : Int)
    (pid2 : Nat) (q2 : Int) (newPrice : Option ℚ) (pid3 : Nat)
    (hc : cartInv c) (hq : 1 ≤ q) :
    cartInv (c.addItem pid q price now) ∧
    cartInv (c.updateItemQuantity pid2 q2 newPrice) ∧
    cartInv (c.removeItem pid3) ∧
    cartInv c.clearCart ∧
    (c.items.any (fun it => it.product == pid) = true →
      (c.addItem pid q price now).items.length = c.items.length) := by
  obtain ⟨hq1, hnd, -, -⟩ := hc
  have hremove : ∀ pidr : Nat, cartInv (c.removeItem pidr) := by
    intro pidr
    refine cartInv_calc _ ?_ ?_
    · intro it hit
      exact hq1 it (List.mem_of_mem_filter hit)
    · exact hnd.sublist (List.Sublist.map _ (List.filter_sublist _))
  refine ⟨?_, ?_, hremove pid3, ?_, ?_⟩
  · unfold Cart.addItem
    by_cases hany : (c.items.any (fun it => it.product == pid)) = true
    · rw [if_pos hany]
      exact cartInv_calc _ (bumpQty_quantity _ _ _ hq hq1)
        (by rw [bumpQty_map_product]; exact hnd)
    · rw [if_neg hany]
      refine cartInv_calc _ ?_ ?_
      · intro it hit
        rcases List.mem_append.mp hit with h | h
        · exact hq1 it h
        · rcases List.mem_singleton.mp h with rfl
          exact hq
      · rw [List.map_append]
        simp only [List.map_cons, List.map_nil]
        refine hnd.append (List.nodup_singleton pid) ?_
        rw [List.disjoint_singleton]
        intro hmem
        obtain ⟨it, hit, hp⟩ := List.mem_map.mp hmem
        have := List.any_eq_false.mp (Bool.not_eq_true _ ▸ hany) it hit
        simp [beq_iff_eq] at this
        exact this hp
  · unfold Cart.updateItemQuantity
    by_cases hany : (c.items.any (fun it => it.product == pid2)) = true
    · rw [if_pos hany]
      by_cases hq2 : q2 ≤ 0
      · rw [if_pos hq2]
        obtain ⟨a1, a2, -, -⟩ := hremove pid2
        exact cartInv_calc _ a1 a2
      · rw [if_neg hq2]
        have hq2' : (1 : Int) ≤ q2 := by omega
        exact cartInv_calc _ (setQty_quantity _ _ _ _ hq2' hq1)
          (by rw [setQty_map_product]; exact hnd)
    · rw [if_neg hany]
      exact cartInv_calc _ hq1 hnd
  · exact ⟨by simp [Cart.clearCart], by simp [Cart.clearCart],
           by simp [Cart.clearCart, sumQty], by simp [Cart.clearCart, sumPrice]⟩
  · intro hany
    simp only [Cart.addItem, hany, if_true]
    exact bumpQty_length c.items pid q

/-- C8 witness: the invariant holds of a one-line cart and is kept by
adding four units of a new product, removing a product, and clearing. -/
theorem claim8_witness :
    cartInv cartW ∧ (1 : Int) ≤ 4 ∧ cartInv (cartW.addItem 6 4 3 1) ∧
    cartInv (cartW.removeItem 5) ∧ cartInv cartW.clearCart := by
  have hinv : cartInv cartW := by
    refine ⟨by decide, by decide, by decide, ?_⟩
    norm_num [cartW, sumPrice]
  have h := claim8_cart_invariant cartW 6 4 3 1 5 2 none 5 hinv (by decide)
  exact ⟨hinv, by decide, h.1, h.2.2.1, h.2.2.2.1⟩

/-- C7 witness: an admin update to shipped with a note and a tracking
number on a pending order. -/
theorem claim7_witness :
    noteOk (some "On its way") = true ∧ trackingOk (some "TRK1") = true ∧
    (adminUpdateStatus (order0 .pending .pending) .shipped (some "On its way")
      (some "TRK1") 3 "e5").2.status = .shipped ∧
    (adminUpdateStatus (order0 .pending .pending) .shipped (some "On its way")
      (some "TRK1") 3 "e5").2.tracking_number = some "TRK1" := by
  have h := claim7_admin_update (order0 .pending .pending) .shipped (some "On its way")
    (some "TRK1") 3 "e5" (by decide) (by decide)
  exact ⟨by decide, by decide, h.2.1, h.2.2.2.2.1 "TRK1" rfl (by decide)⟩

end Shop
